import Mathlib

/-!
A shallow embedding of the server-side monitored-item engine of
`lib/server/monitored_item.js` (node-opcua), together with theorems checking
the natural-language specification of that module against the code.

Conventions of the embedding:
* JavaScript numbers that the module treats as (possibly fractional) machine
  reals are modelled as `Rat`; millisecond intervals and queue sizes as `Nat`.
* `better-assert` assertions compile to no-ops in production; the embedding
  follows the production semantics (an `assert` is a pure check with no
  effect) and each such place is noted in a comment.
* Functions of the repository that live outside the provided sources
  (`sameDataValue`, `apply_timestamps`, `NumericRange.overlap`,
  `extractRange` from `lib/datamodel`) are modelled from the specification
  and carry a doc comment saying so.
-/

namespace MonitoredItemSpec

/-- Status codes used by the monitored-item module (`StatusCodes` from
`lib/datamodel/opcua_status_code`). The module compares status codes with
`===` on singleton objects, i.e. plain equality. -/
inductive StatusCode where
  | Good
  | GoodWithOverflowBit
  | BadDataUnavailable
  | BadOutOfRange
  | Other (code : Nat)
deriving DecidableEq, Repr

/-- Variant data types, as far as the module inspects them
(`DataType` from `lib/datamodel/variant`): `difference` tests for
`UInt64`/`Int64`, everything else is treated as a plain scalar. -/
inductive DataType where
  | Double
  | UInt64
  | Int64
  | OtherType (t : Nat)
deriving DecidableEq, Repr

/-- The payload of a variant: either a scalar number, or — for the 64-bit
integer types — the `[high, low]` word pair that the JS code indexes as
`value[0]` / `value[1]`. -/
inductive VariantValue where
  | scalar (q : Rat)
  | words (high low : Int)
deriving DecidableEq, Repr

/-- `v.value[0]` of a word-pair payload (the high word). -/
def VariantValue.at0 : VariantValue → Int
  | .scalar _ => 0
  | .words high _ => high

/-- `v.value[1]` of a word-pair payload (the low word). -/
def VariantValue.at1 : VariantValue → Int
  | .scalar _ => 0
  | .words _ low => low

/-- The scalar payload, for variants the code subtracts directly. -/
def VariantValue.asScalar : VariantValue → Rat
  | .scalar q => q
  | .words _ _ => 0

/-- A `Variant` as the module consumes it: a data type tag plus payload. -/
structure Variant where
  dataType : DataType
  value : VariantValue
deriving DecidableEq, Repr

/-- A `DataValue` (a reading): variant payload, status code and the
timestamp fields the module moves around. -/
structure DataValue where
  value : Variant
  statusCode : StatusCode
  sourceTimestamp : Option Nat := none
  serverTimestamp : Option Nat := none
deriving DecidableEq, Repr

/-- `MonitoringMode` from the subscription service, including the internal
`Invalid` sentinel used as the pre-initial value. -/
inductive MonitoringMode where
  | Invalid
  | Disabled
  | Sampling
  | Reporting
deriving DecidableEq, Repr

/-- `TimestampsToReturn` from the read service. -/
inductive TimestampsToReturn where
  | Source
  | Server
  | Both
  | Neither
deriving DecidableEq, Repr

/-- `DataChangeTrigger` values of a `DataChangeFilter`. -/
inductive DataChangeTrigger where
  | Status
  | StatusValue
  | StatusValueTimestamp
deriving DecidableEq, Repr

/-- `DeadbandType` values of a `DataChangeFilter`. -/
inductive DeadbandType where
  | NoDeadband
  | Absolute
  | Percent
deriving DecidableEq, Repr

/-- A `DataChangeFilter` extension object. -/
structure DataChangeFilter where
  trigger : DataChangeTrigger
  deadbandType : DeadbandType
  deadbandValue : Rat
deriving DecidableEq, Repr

/-- `self.filter` is either null, a `DataChangeFilter`, or some other
extension object (in which case `apply_filter` keeps every reading). -/
inductive Filter where
  | dataChange (f : DataChangeFilter)
  | otherFilter
deriving DecidableEq, Repr

/-- `AttributeIds` as far as the module distinguishes them: `Value`
versus any non-Value attribute. -/
inductive AttributeId where
  | Value
  | NonValue (id : Nat)
deriving DecidableEq, Repr

/-- Modelled from the spec: a `NumericRange` of `lib/datamodel/numeric_range`
(not under the provided sources) is either the null range or a contiguous
index interval. -/
abbrev NumericRange : Type := Option (Nat × Nat)

/-- The null numeric range (a JS `null`/`undefined` index range). -/
def NumericRange.nullRange : NumericRange := none

/-- Modelled from the spec: `NumericRange.overlap` of
`lib/datamodel/numeric_range` (not under the provided sources). A null
range overlaps everything; two intervals overlap when they intersect. -/
def NumericRange.overlap : NumericRange → NumericRange → Bool
  | none, _ => true
  | _, none => true
  | some (a, b), some (c, d) => a ≤ d && c ≤ b

/-- Modelled from the spec: `extractRange` of `lib/datamodel/datavalue`
(not under the provided sources) narrows a reading to the configured index
range. On the scalar and word-pair payloads of this model (non-array
values), and for the null range, extraction returns the reading unchanged,
which is what the library does for non-array variants. -/
def extractRange (dataValue : DataValue) (_range : NumericRange) : DataValue :=
  dataValue

/-- Modelled from the spec: `sameDataValue` of `lib/datamodel/datavalue`
(not under the provided sources) compares two readings for equality
(value, status code and timestamps); consecutive identical readings are
meant to be recognised by it. -/
def sameDataValue (a b : DataValue) : Bool :=
  a = b

/-- Modelled from the spec: `apply_timestamps` of `lib/datamodel/datavalue`
(not under the provided sources) normalises the timestamp fields of a
reading according to `timestampsToReturn`. The `attributeId` argument is
threaded through as in the JS call but does not affect which fields are
kept in this model. -/
def apply_timestamps (dataValue : DataValue) (ttr : TimestampsToReturn)
    (_attributeId : AttributeId) : DataValue :=
  match ttr with
  | .Source => { dataValue with serverTimestamp := none }
  | .Server => { dataValue with sourceTimestamp := none }
  | .Both => dataValue
  | .Neither => { dataValue with sourceTimestamp := none, serverTimestamp := none }

/-! ### Parameter normalisation (`_adjust_sampling_interval`, `_adjust_queue_size`) -/

/-- `minimumSamplingInterval` (50 ms). -/
def minimumSamplingInterval : Nat := 50

/-- `defaultSamplingInterval` (1500 ms). -/
def defaultSamplingInterval : Nat := 1500

/-- `maximumSamplingInterval` (1 hour). -/
def maximumSamplingInterval : Nat := 1000 * 60 * 60

/-- `maxQueueSize` (5000). -/
def maxQueueSize : Nat := 5000

/-- `_adjust_sampling_interval`: 0 stays 0 (exception-based); any other
value is clamped into `[minimumSamplingInterval, maximumSamplingInterval]`.
(The JS `samplingInterval || defaultSamplingInterval` only replaces the
already-excluded 0/NaN, so it is the identity here.) -/
def _adjust_sampling_interval (samplingInterval : Nat) : Nat :=
  if samplingInterval = 0 then samplingInterval
  else min (max samplingInterval minimumSamplingInterval) maximumSamplingInterval

/-- `_adjust_queue_size`: clamp into `[1, maxQueueSize]`. -/
def _adjust_queue_size (queueSize : Nat) : Nat :=
  max 1 (min queueSize maxQueueSize)

/-! ### Filter evaluation (`statusCodeHasChanged`, `difference`, `valueHasChanged`,
`apply_datachange_filter`, `apply_filter`) -/

/-- `statusCodeHasChanged`: the status codes differ. -/
def statusCodeHasChanged (newDataValue oldDataValue : DataValue) : Bool :=
  newDataValue.statusCode ≠ oldDataValue.statusCode

/-- `difference(v1, v2)` from `monitored_item.js:362-371`. For the 64-bit
branch (taken when `v1.dataType === UInt64 || v2.dataType === Int64`) the
code asserts `v1.value[0] === v2.value[0]` with the message
"TODO : fix this case" — a production no-op — and returns the low-word
difference `v1.value[1] - v2.value[1]` regardless of the high words.
Otherwise it returns `v2.value - v1.value`. -/
def difference (v1 v2 : Variant) : Rat :=
  if v1.dataType = DataType.UInt64 ∨ v2.dataType = DataType.Int64 then
    ((v1.value.at1 : Int) - v2.value.at1 : Int)
  else
    v2.value.asScalar - v1.value.asScalar

/-- `valueHasChanged` from `monitored_item.js:373-414`. The `Percent` arm
contains only assertions and a commented-out
`assert(false, "Not implemented yet")`; it returns `true` unconditionally
(no EURange computation is performed). -/
def valueHasChanged (newDataValue oldDataValue : DataValue)
    (deadbandType : DeadbandType) (deadbandValue : Rat) : Bool :=
  match deadbandType with
  | .NoDeadband =>
      difference oldDataValue.value newDataValue.value ≠ 0
  | .Absolute =>
      |difference oldDataValue.value newDataValue.value| > deadbandValue
  | .Percent =>
      true

/-- `apply_datachange_filter` from `monitored_item.js:415-449`. The
`StatusValueTimestamp` trigger falls through the switch into `return false`. -/
def apply_datachange_filter (filter : DataChangeFilter)
    (newDataValue oldDataValue : DataValue) : Bool :=
  match filter.trigger with
  | .Status =>
      statusCodeHasChanged newDataValue oldDataValue
  | .StatusValue =>
      statusCodeHasChanged newDataValue oldDataValue ||
        valueHasChanged newDataValue oldDataValue filter.deadbandType filter.deadbandValue
  | .StatusValueTimestamp =>
      false

/-- `apply_filter` from `monitored_item.js:451-467`. The no-filter branch
calls `valueHasChanged(newDataValue, oldDataValue, DeadbandType.None)` with
shifted arguments, so `deadbandType` is `undefined` there and control
reaches the default (`Percent`) arm of `valueHasChanged`, whose assertions
are production no-ops and which returns `true`; the branch therefore
evaluates to `statusCodeHasChanged || true`. A non-`DataChangeFilter`
filter keeps every reading. -/
def apply_filter (filter : Option Filter)
    (newDataValue oldDataValue : DataValue) : Bool :=
  match filter with
  | none =>
      statusCodeHasChanged newDataValue oldDataValue || true
  | some (.dataChange f) =>
      apply_datachange_filter f newDataValue oldDataValue
  | some .otherFilter =>
      true

/-! ### The monitored-item state -/

/-- `itemToMonitor`: the attribute under observation and the configured
index range (node id and data encoding are not consulted by the module). -/
structure ItemToMonitor where
  attributeId : AttributeId
  indexRange : NumericRange := NumericRange.nullRange
deriving DecidableEq, Repr

/-- The `MonitoringParameters` fields that `_set_parameters` consumes. -/
structure MonitoringParameters where
  clientHandle : Nat
  samplingInterval : Nat
  discardOldest : Bool
  queueSize : Nat
deriving DecidableEq, Repr

/-- A notification produced by `extractMonitoredItemNotifications`. -/
structure MonitoredItemNotification where
  clientHandle : Nat
  value : DataValue
deriving DecidableEq, Repr

/-- The result object returned by `modify` (the `filterResult` member is
always null for a `DataChangeFilter` and is omitted). -/
structure MonitoredItemModifyResult where
  statusCode : StatusCode
  revisedSamplingInterval : Nat
  revisedQueueSize : Nat
deriving DecidableEq, Repr

/-- The state of a server-side `MonitoredItem`. The three JS instance
fields `_samplingId`, `_value_changed_callback` and
`_attribute_changed_callback` are kept as three separate slots, as in the
source. `nextTimerHandle` is the embedding's supply of fresh `setInterval`
handles: each (re)scheduled timer receives a handle never used before,
mirroring `setInterval` returning a fresh timer object. The
`monitoredItemId` and the node back-reference play no role in the claims
and are omitted. -/
structure MonitoredItem where
  clientHandle : Nat
  samplingInterval : Nat
  discardOldest : Bool
  queueSize : Nat
  queue : List DataValue
  overflow : Bool
  oldDataValue : DataValue
  monitoringMode : MonitoringMode
  timestampsToReturn : TimestampsToReturn
  itemToMonitor : ItemToMonitor
  filter : Option Filter
  samplingId : Option Nat
  valueChangedCallback : Bool
  attributeChangedCallback : Bool
  nextTimerHandle : Nat
deriving DecidableEq, Repr

/-- The sentinel `new DataValue({statusCode: BadDataUnavailable})` used as
the initial / reset `oldDataValue` (its variant is unset). -/
def unsetDataValue : DataValue :=
  { value := { dataType := .OtherType 0, value := .scalar 0 },
    statusCode := .BadDataUnavailable }

/-- The constructor `MonitoredItem(options)`: parameters are normalised via
`_set_parameters`, the queue starts empty, `oldDataValue` is the
`BadDataUnavailable` sentinel, and the mode starts at the internal
`Invalid` sentinel (the constructor rejects a `monitoringMode` option). -/
structure MonitoredItemOptions where
  clientHandle : Nat
  samplingInterval : Nat
  discardOldest : Bool
  queueSize : Nat
  itemToMonitor : ItemToMonitor
  filter : Option Filter := none
  timestampsToReturn : Option TimestampsToReturn := none
deriving DecidableEq, Repr

/-- `new MonitoredItem(options)` from `monitored_item.js:87-122`. -/
def createMonitoredItem (options : MonitoredItemOptions) : MonitoredItem :=
  { clientHandle := options.clientHandle
    samplingInterval := _adjust_sampling_interval options.samplingInterval
    discardOldest := options.discardOldest
    queueSize := _adjust_queue_size options.queueSize
    queue := []
    overflow := false
    oldDataValue := unsetDataValue
    monitoringMode := .Invalid
    timestampsToReturn := options.timestampsToReturn.getD .Neither
    itemToMonitor := options.itemToMonitor
    filter := options.filter
    samplingId := none
    valueChangedCallback := false
    attributeChangedCallback := false
    nextTimerHandle := 0 }

/-- `_set_parameters` from `monitored_item.js:288-300` (the validation
asserts are production no-ops; the numeric adjustments are applied). -/
def _set_parameters (self : MonitoredItem) (options : MonitoringParameters) :
    MonitoredItem :=
  { self with
      clientHandle := options.clientHandle
      samplingInterval := _adjust_sampling_interval options.samplingInterval
      discardOldest := options.discardOldest
      queueSize := _adjust_queue_size options.queueSize }

/-- `_stop_sampling` from `monitored_item.js:146-179`: an if/else chain
that releases the attribute-change listener, else the value-change
listener, else the periodic timer (the global registry bookkeeping is not
modelled). -/
def _stop_sampling (self : MonitoredItem) : MonitoredItem :=
  if self.attributeChangedCallback then
    { self with attributeChangedCallback := false }
  else if self.valueChangedCallback then
    { self with valueChangedCallback := false }
  else if self.samplingId.isSome then
    { self with samplingId := none }
  else
    self

/-! ### The ingestion path (`_enqueue_value`, `recordValue`,
`_on_value_changed`, `_on_sampling_timer`) -/

/-- `_enqueue_value` from `monitored_item.js:520-561`. Note the source
stores `oldDataValue := dataValue` at the top. In the discard-oldest
overflow arm the source asserts the new front is `Good` (production no-op)
and then overwrites its status with `GoodWithOverflowBit`; in the
keep-oldest overflow arm the incoming reading itself gets the overflow
status and replaces the current back element. -/
def _enqueue_value (self : MonitoredItem) (dataValue : DataValue) :
    MonitoredItem :=
  let self := { self with oldDataValue := dataValue }
  if self.queueSize = 1 then
    { self with queue := [dataValue] }
  else if self.discardOldest then
    let queue := self.queue ++ [dataValue]
    if queue.length > self.queueSize then
      let queue := queue.drop 1
      let queue :=
        match queue with
        | [] => []
        | front :: rest =>
            { front with statusCode := StatusCode.GoodWithOverflowBit } :: rest
      { self with overflow := true, queue := queue }
    else
      { self with queue := queue }
  else if self.queue.length < self.queueSize then
    { self with queue := self.queue ++ [dataValue] }
  else
    { self with
        overflow := true
        queue := self.queue.dropLast ++
          [{ dataValue with statusCode := StatusCode.GoodWithOverflowBit }] }

/-- `recordValue` from `monitored_item.js:487-518`: discard when the
changed region does not overlap the configured index range; narrow the
reading; when a filter is configured and rejects it, return without side
effect; otherwise enqueue and store the reading as `oldDataValue`. -/
def recordValue (self : MonitoredItem) (dataValue : DataValue)
    (indexRange : NumericRange) : MonitoredItem :=
  if ¬ NumericRange.overlap indexRange self.itemToMonitor.indexRange then
    self
  else
    let dataValue := extractRange dataValue self.itemToMonitor.indexRange
    if self.filter.isSome ∧ ¬ apply_filter self.filter dataValue self.oldDataValue then
      self
    else
      let self := _enqueue_value self dataValue
      { self with oldDataValue := dataValue }

/-- `_on_value_changed` from `monitored_item.js:181-186`: every
event-driven or timer-driven delivery is gated on
`!sameDataValue(dataValue, oldDataValue)` before `recordValue` runs. -/
def _on_value_changed (self : MonitoredItem) (dataValue : DataValue)
    (indexRange : NumericRange) : MonitoredItem :=
  if ¬ sameDataValue dataValue self.oldDataValue then
    recordValue self dataValue indexRange
  else
    self

/-- `_on_sampling_timer` from `monitored_item.js:319-347`, in the case
where the sampling function succeeds and produces `sampled` (the error
branch only logs): when the timer is still live the result is handed to
`_on_value_changed` with no index range; after termination the tick is
ignored. -/
def _on_sampling_timer (self : MonitoredItem) (sampled : DataValue) :
    MonitoredItem :=
  if self.samplingId.isSome then
    _on_value_changed self sampled NumericRange.nullRange
  else
    self

/-- `_start_sampling` from `monitored_item.js:188-247`: scrap
`oldDataValue` back to the sentinel, stop any current sampler, then bind
the sampler chosen by attribute kind and sampling interval; `readValue` is
the reading the node would deliver for the initial read
(`readAttribute` / `readValueAsync` / the sampling function). -/
def _start_sampling (self : MonitoredItem) (recordInitialValue : Bool)
    (readValue : DataValue) : MonitoredItem :=
  let self := { self with oldDataValue := unsetDataValue }
  let self := _stop_sampling self
  if self.itemToMonitor.attributeId ≠ AttributeId.Value then
    let self := { self with samplingInterval := 0, attributeChangedCallback := true }
    if recordInitialValue then recordValue self readValue NumericRange.nullRange
    else self
  else if self.samplingInterval = 0 then
    let self := { self with valueChangedCallback := true }
    if recordInitialValue then recordValue self readValue NumericRange.nullRange
    else self
  else
    let self := { self with
      samplingId := some self.nextTimerHandle
      nextTimerHandle := self.nextTimerHandle + 1 }
    if recordInitialValue then _on_sampling_timer self readValue
    else self

/-- `setMonitoringMode` from `monitored_item.js:249-286`: a same-mode
transition is a no-op; entering `Disabled` stops sampling and deletes all
queued notifications; entering `Sampling`/`Reporting` restarts sampling,
recording an initial value exactly when the previous mode was `Invalid` or
`Disabled`. -/
def setMonitoringMode (self : MonitoredItem) (monitoringMode : MonitoringMode)
    (readValue : DataValue) : MonitoredItem :=
  if monitoringMode = self.monitoringMode then
    self
  else
    let old_monitoringMode := self.monitoringMode
    let self := { self with monitoringMode := monitoringMode }
    if self.monitoringMode = MonitoringMode.Disabled then
      let self := _stop_sampling self
      { self with queue := [], overflow := false }
    else
      let recordInitialValue :=
        old_monitoringMode = MonitoringMode.Invalid ∨
          old_monitoringMode = MonitoringMode.Disabled
      _start_sampling self recordInitialValue readValue

/-! ### Extraction and modification -/

/-- `_empty_queue` from `monitored_item.js:563-571`. -/
def _empty_queue (self : MonitoredItem) : MonitoredItem :=
  { self with queue := [], overflow := false }

/-- `extractMonitoredItemNotifications` from `monitored_item.js:577-597`:
outside `Reporting` it returns the empty list without draining; in
`Reporting` it maps the queue in order to `{clientHandle, value}` pairs
with timestamps normalised, then empties the queue. -/
def extractMonitoredItemNotifications (self : MonitoredItem) :
    List MonitoredItemNotification × MonitoredItem :=
  if self.monitoringMode ≠ MonitoringMode.Reporting then
    ([], self)
  else
    let attributeId := self.itemToMonitor.attributeId
    let notifications := self.queue.map fun dataValue =>
      { clientHandle := self.clientHandle
        value := apply_timestamps dataValue self.timestampsToReturn attributeId :
          MonitoredItemNotification }
    (notifications, _empty_queue self)

/-- `_change_timer_timeout` from `monitored_item.js:599-609`: nothing when
no timer is bound; otherwise clear the interval and schedule a fresh one
(a fresh handle). -/
def _change_timer_timeout (self : MonitoredItem) : MonitoredItem :=
  match self.samplingId with
  | none => self
  | some _ =>
      { self with
          samplingId := some self.nextTimerHandle
          nextTimerHandle := self.nextTimerHandle + 1 }

/-- `_adjust_queue_to_match_new_queue_size` from
`monitored_item.js:612-640`. When the new size is below the current
length: with `discardOldest` drop from the front to fit; otherwise keep
the first `queueSize` elements but overwrite the last kept slot with the
original most-recent element. When the new size is ≤ 1, clear `overflow`
and downgrade a lone `GoodWithOverflowBit` survivor to `Good`. -/
def _adjust_queue_to_match_new_queue_size (self : MonitoredItem) :
    MonitoredItem :=
  let self :=
    if self.queueSize < self.queue.length then
      if self.discardOldest then
        { self with queue := self.queue.drop (self.queue.length - self.queueSize) }
      else
        match self.queue.getLast? with
        | none => self
        | some lastElement =>
            { self with
                queue := (self.queue.take self.queueSize).dropLast ++ [lastElement] }
    else
      self
  if self.queueSize ≤ 1 then
    let self := { self with overflow := false }
    match self.queue with
    | [dv] =>
        if dv.statusCode = StatusCode.GoodWithOverflowBit then
          { self with queue := [{ dv with statusCode := StatusCode.Good }] }
        else
          self
    | _ => self
  else
    self

/-- `_adjust_sampling` from `monitored_item.js:642-649`: restart the timer
only when the sampling interval actually changed. -/
def _adjust_sampling (self : MonitoredItem) (old_samplingInterval : Nat) :
    MonitoredItem :=
  if old_samplingInterval ≠ self.samplingInterval then
    _change_timer_timeout self
  else
    self

/-- `modify` from `monitored_item.js:651-678`: optionally replace
`timestampsToReturn` (a null argument keeps the old one), re-normalise the
parameters, fit the queue to the new size, restart the timer on an
interval change, and return the revised values with a `Good` status. -/
def modify (self : MonitoredItem) (timestampsToReturn : Option TimestampsToReturn)
    (options : MonitoringParameters) :
    MonitoredItemModifyResult × MonitoredItem :=
  let old_samplingInterval := self.samplingInterval
  let self :=
    match timestampsToReturn with
    | some ttr => { self with timestampsToReturn := ttr }
    | none => self
  let self := _set_parameters self options
  let self := _adjust_queue_to_match_new_queue_size self
  let self := _adjust_sampling self old_samplingInterval
  ({ statusCode := .Good
     revisedSamplingInterval := self.samplingInterval
     revisedQueueSize := self.queueSize }, self)

/-! ### The operation model

A monitored item evolves under externally triggered operations: monitoring
mode changes, sampler deliveries, notification extraction by the owning
subscription, and re-parameterisation. A delivery reaches the item only
through a live sampler binding, and all three sampler callbacks of the
source (`setInterval` tick, `value_changed` listener, per-attribute
listener) funnel into `_on_value_changed`. -/

/-- One externally triggered operation. `setMode` carries the reading the
node would return for the initial read that enabling performs; `deliver`
is the bound sampler firing with a reading (ignored when no sampler is
live, since nothing is subscribed then). -/
inductive Op where
  | setMode (m : MonitoringMode) (readValue : DataValue)
  | deliver (dataValue : DataValue) (indexRange : NumericRange)
  | extract
  | modifyOp (ttr : Option TimestampsToReturn) (options : MonitoringParameters)
deriving DecidableEq, Repr

/-- The effect of one operation on the item state. For `deliver`: a live
periodic timer routes through `_on_sampling_timer`; a live value-change or
attribute-change listener routes through `_on_value_changed`
(`monitored_item.js:206,223` bind both listeners to `_on_value_changed`);
with no live binding nothing fires. -/
def step (self : MonitoredItem) : Op → MonitoredItem
  | .setMode m readValue => setMonitoringMode self m readValue
  | .deliver dataValue indexRange =>
      if self.samplingId.isSome then
        _on_sampling_timer self dataValue
      else if self.valueChangedCallback || self.attributeChangedCallback then
        _on_value_changed self dataValue indexRange
      else
        self
  | .extract => (extractMonitoredItemNotifications self).2
  | .modifyOp ttr options => (modify self ttr options).2

/-- Run a sequence of operations from a state. -/
def run (self : MonitoredItem) (ops : List Op) : MonitoredItem :=
  ops.foldl step self

/-- An operation respecting the module's own stated preconditions:
`setMonitoringMode` asserts the target mode is not the internal `Invalid`
sentinel (`monitored_item.js:253`). -/
def validOp : Op → Bool
  | .setMode m _ => m != MonitoringMode.Invalid
  | _ => true

/-- Every operation of the trace is valid in the sense of `validOp`. -/
def validTrace : MonitoredItem → List Op → Bool
  | _, [] => true
  | self, op :: ops => validOp op && validTrace (step self op) ops

/-- An operation under which the overflow-marker invariant can survive:
valid, its readings do not already carry the queue-injected
`GoodWithOverflowBit` marker, and a re-parameterisation never shrinks the
queue capacity below the readings currently queued. -/
def overflowSafeOp (self : MonitoredItem) : Op → Bool
  | .setMode m readValue =>
      (m != MonitoringMode.Invalid) &&
        (readValue.statusCode != StatusCode.GoodWithOverflowBit)
  | .deliver dataValue _ =>
      dataValue.statusCode != StatusCode.GoodWithOverflowBit
  | .extract => true
  | .modifyOp _ options =>
      self.queue.length ≤ _adjust_queue_size options.queueSize

/-- Every operation of the trace is overflow-safe at the state where it
runs. -/
def overflowSafeTrace : MonitoredItem → List Op → Bool
  | _, [] => true
  | self, op :: ops => overflowSafeOp self op && overflowSafeTrace (step self op) ops

/-- No sampler binding (timer, value-change listener or attribute-change
listener) is live. -/
def samplerUnbound (self : MonitoredItem) : Prop :=
  self.samplingId = none ∧ self.valueChangedCallback = false ∧
    self.attributeChangedCallback = false

/-- The number of live sampler bindings. -/
def bindingCount (self : MonitoredItem) : Nat :=
  (if self.samplingId.isSome then 1 else 0) +
    (if self.valueChangedCallback then 1 else 0) +
    (if self.attributeChangedCallback then 1 else 0)

/-- The overflow-marker invariant of the specification: the `overflow`
flag is set exactly when some queued reading carries
`GoodWithOverflowBit`. -/
def overflowInvariant (self : MonitoredItem) : Prop :=
  self.overflow = true ↔
    ∃ dv ∈ self.queue, dv.statusCode = StatusCode.GoodWithOverflowBit

/-- The inductive strengthening used to carry `overflowInvariant` through
all overflow-safe operations. -/
def goodState (self : MonitoredItem) : Prop :=
  overflowInvariant self ∧
    self.queue.length ≤ self.queueSize ∧
    1 ≤ self.queueSize ∧
    (self.queueSize = 1 → self.overflow = false)

/-- The inductive strengthening used for the `Disabled` invariant: at most
one sampler binding is live, and in the `Disabled` and `Invalid` modes no
binding is live and (when `Disabled`) the queue is empty. -/
def disabledInvariant (self : MonitoredItem) : Prop :=
  bindingCount self ≤ 1 ∧
    ((self.monitoringMode = MonitoringMode.Disabled ∨
        self.monitoringMode = MonitoringMode.Invalid) → samplerUnbound self) ∧
    (self.monitoringMode = MonitoringMode.Disabled → self.queue = [])

/-! ### Concrete readings and scenario states -/

/-- A scalar `Double` variant. -/
def mkDouble (q : Rat) : Variant :=
  { dataType := .Double, value := .scalar q }

/-- A scalar reading with the given value and status. -/
def mkReading (q : Rat) (statusCode : StatusCode) : DataValue :=
  { value := mkDouble q, statusCode := statusCode }

/-- A scalar reading with status `Good`. -/
def goodReading (q : Rat) : DataValue := mkReading q .Good

/-- A `UInt64` variant holding the `[high, low]` word pair. -/
def u64 (high low : Int) : Variant :=
  { dataType := .UInt64, value := .words high low }

/-- Creation options shared by the concrete scenarios: a periodic Value
item with queue size 3. -/
def scenarioOptions (discardOldest : Bool) (queueSize : Nat) : MonitoredItemOptions :=
  { clientHandle := 1
    samplingInterval := 100
    discardOldest := discardOldest
    queueSize := queueSize
    itemToMonitor := { attributeId := .Value } }

/-- Scenario S1 (discard oldest): queue size 3, readings valued 1..5, all
`Good`, pushed through `_enqueue_value`. -/
def s1_final : MonitoredItem :=
  ([1, 2, 3, 4, 5] : List Rat).foldl
    (fun s q => _enqueue_value s (goodReading q))
    (createMonitoredItem (scenarioOptions true 3))

/-- Scenario S2 (discard newest): queue size 3, readings valued 1..5, all
`Good`, pushed through `_enqueue_value`. -/
def s2_final : MonitoredItem :=
  ([1, 2, 3, 4, 5] : List Rat).foldl
    (fun s q => _enqueue_value s (goodReading q))
    (createMonitoredItem (scenarioOptions false 3))

/-- A no-filter item that has recorded the reading 5.0 once: its
`oldDataValue` is that reading and its queue holds it. -/
def c2_base : MonitoredItem :=
  recordValue (createMonitoredItem (scenarioOptions true 3)) (goodReading 5)
    NumericRange.nullRange

/-- A periodic item enabled into `Sampling` whose initial sample was the
reading 7.0: the timer with handle 0 is bound, `oldDataValue` is that
reading and the queue holds it. -/
def c3_state : MonitoredItem :=
  step (createMonitoredItem (scenarioOptions true 3))
    (.setMode .Sampling (goodReading 7))

/-- The operation trace refuting the overflow-marker invariant: enable
into `Sampling`, deliver four distinct readings so the queue overflows and
marks its front survivor, then shrink the queue from capacity 3 to 2,
which drops the marked front while leaving `overflow` set. -/
def c6_ops : List Op :=
  [ .setMode .Sampling (goodReading 1)
  , .deliver (goodReading 2) NumericRange.nullRange
  , .deliver (goodReading 3) NumericRange.nullRange
  , .deliver (goodReading 4) NumericRange.nullRange
  , .modifyOp none
      { clientHandle := 1, samplingInterval := 100, discardOldest := true,
        queueSize := 2 } ]

/-- The state reached by `c6_ops` from a fresh discard-oldest item of
queue size 3. -/
def c6_state : MonitoredItem :=
  run (createMonitoredItem (scenarioOptions true 3)) c6_ops

/-- A discard-oldest item of queue size 3 whose queue is full with the
readings 1, 2, 3 (all `Good`). -/
def s1_full : MonitoredItem :=
  ([1, 2, 3] : List Rat).foldl
    (fun s q => _enqueue_value s (goodReading q))
    (createMonitoredItem (scenarioOptions true 3))

/-- A keep-oldest item of queue size 3 whose queue is full with the
readings 1, 2, 3 (all `Good`). -/
def s2_full : MonitoredItem :=
  ([1, 2, 3] : List Rat).foldl
    (fun s q => _enqueue_value s (goodReading q))
    (createMonitoredItem (scenarioOptions false 3))

/-- A periodic item enabled into `Reporting` holding the readings 1 and 2
in its queue. -/
def c8_state : MonitoredItem :=
  run (createMonitoredItem (scenarioOptions true 3))
    [ .setMode .Reporting (goodReading 1)
    , .deliver (goodReading 2) NumericRange.nullRange ]

/-- An overflow-safe operation trace that makes the queue overflow: enable
into `Sampling` and deliver four distinct readings into a queue of
capacity 3. -/
def c6_safe_ops : List Op :=
  [ .setMode .Sampling (goodReading 1)
  , .deliver (goodReading 2) NumericRange.nullRange
  , .deliver (goodReading 3) NumericRange.nullRange
  , .deliver (goodReading 4) NumericRange.nullRange ]

/-- The sampler-facing part of the state: monitoring mode and the three
binding slots. Used to state that the ingestion path never touches the
sampler configuration. -/
def samplerConfig (self : MonitoredItem) :
    MonitoringMode × Option Nat × Bool × Bool :=
  (self.monitoringMode, self.samplingId, self.valueChangedCallback,
    self.attributeChangedCallback)

/-- The queue-facing part of the state: queue, overflow flag and queue
capacity. Used to state that sampler (re)binding never touches the
queue. -/
def queueState (self : MonitoredItem) : List DataValue × Bool × Nat :=
  (self.queue, self.overflow, self.queueSize)

/-! ## Theorems -/

/-- Claim C1. The specification requires the Percent deadband to report a
change iff `|new - old| > (deadband_value / 100) × (EURange.high -
EURange.low)`; with EURange `{low 0, high 200}` and `deadband_value` 10
the threshold is 20, so delivering 115.0 on an old value of 100.0 must not
be reported. The code's `Percent` arm of `valueHasChanged` is unimplemented
(`assert(false, "Not implemented yet")` is commented out) and returns
`true` unconditionally, so the filter reports 115.0 as well: the code
contradicts the deadband formula quoted in its own comment block. -/
theorem percent_deadband_ignores_eurange :
    apply_datachange_filter
        { trigger := .StatusValue, deadbandType := .Percent, deadbandValue := 10 }
        (goodReading 115) (goodReading 100) = true ∧
    ¬(|(115 : Rat) - 100| > 10 / 100 * (200 - 0)) ∧
    apply_datachange_filter
        { trigger := .StatusValue, deadbandType := .Percent, deadbandValue := 10 }
        (goodReading 125) (goodReading 100) = true := by
  refine ⟨by decide, by norm_num, by decide⟩

/-- Claim C2. The specification says that with no filter configured,
`record_value` enqueues iff the status code or the value changed
(DeadbandType None), and that a reading identical to `old_reading`
produces no enqueue. In the code, `recordValue` consults `apply_filter`
only when a filter is configured (`monitored_item.js:508`), so with no
filter a reading identical in status and value to `oldDataValue` is
enqueued anyway: here the item has `oldDataValue = goodReading 5` with
queue `[goodReading 5]`, the delivered reading is identical (neither the
status-change nor the value-change predicate fires), yet the queue grows
to two copies. -/
theorem recordValue_no_filter_enqueues_identical :
    c2_base.filter = none ∧
    c2_base.oldDataValue = goodReading 5 ∧
    statusCodeHasChanged (goodReading 5) c2_base.oldDataValue = false ∧
    valueHasChanged (goodReading 5) c2_base.oldDataValue .NoDeadband 0 = false ∧
    c2_base.queue = [goodReading 5] ∧
    (recordValue c2_base (goodReading 5) NumericRange.nullRange).queue =
      [goodReading 5, goodReading 5] := by
  have hold : c2_base.oldDataValue = goodReading 5 := by decide
  refine ⟨by decide, hold, by decide, ?_, by decide, by decide⟩
  rw [hold]
  simp [valueHasChanged, difference, goodReading, mkReading, mkDouble,
    VariantValue.asScalar]

/-- Claim C9. The specification requires the numeric difference of 64-bit
integer variants to be the low-word difference when the high words are
equal, and the reading to be treated as changed when the high words
differ. The code's `difference` returns the low-word difference in both
cases (the `assert(h1 === h2, "TODO : fix this case")` is a check with no
effect on the result), so two `UInt64` readings whose high words differ
but whose low words agree produce a difference of 0 and are not reported
under DeadbandType None — the code's own TODO marks the missing case. -/
theorem difference_ignores_high_words :
    difference (u64 0 7) (u64 0 5) = 2 ∧
    (u64 0 5).value.at0 ≠ (u64 1 5).value.at0 ∧
    difference (u64 0 5) (u64 1 5) = 0 ∧
    valueHasChanged { value := u64 1 5, statusCode := .Good }
      { value := u64 0 5, statusCode := .Good } .NoDeadband 0 = false ∧
    valueHasChanged { value := u64 1 5, statusCode := .Good }
      { value := u64 0 5, statusCode := .Good } .Absolute 0 = false := by
  refine ⟨?_, by decide, ?_, ?_, ?_⟩ <;>
    simp [valueHasChanged, difference, u64, VariantValue.at1]

/-- Claim C4. With `discard_oldest` and `queue_size > 1`, enqueueing into
a full queue drops the front element, promotes the new front's status to
`GoodWithOverflowBit`, and sets `overflow`; and the concrete S1 run
(queue size 3, readings 1..5 all `Good`) ends with values `[3,4,5]`, the
reading valued 3 carrying the overflow status, and `overflow` set. -/
theorem enqueue_discard_oldest_overflow
    (self : MonitoredItem) (dv front second : DataValue) (rest : List DataValue)
    (hdiscard : self.discardOldest = true)
    (hsize : 1 < self.queueSize)
    (hfull : self.queue.length = self.queueSize)
    (hq : self.queue = front :: second :: rest) :
    (_enqueue_value self dv).queue =
        { second with statusCode := StatusCode.GoodWithOverflowBit } ::
          (rest ++ [dv]) ∧
    (_enqueue_value self dv).overflow = true ∧
    s1_final.queue.map DataValue.value = [mkDouble 3, mkDouble 4, mkDouble 5] ∧
    s1_final.queue.map DataValue.statusCode =
      [StatusCode.GoodWithOverflowBit, StatusCode.Good, StatusCode.Good] ∧
    s1_final.overflow = true := by
  have hlen : self.queue.length = rest.length + 2 := by rw [hq]; simp
  have hne : self.queueSize ≠ 1 := by omega
  have hcond : self.queueSize < rest.length + 1 + 1 + 1 := by omega
  refine ⟨?_, ?_, by decide, by decide, by decide⟩ <;>
    simp [_enqueue_value, hne, hdiscard, hq, hcond]

/-- Claim C5. With `discard_oldest == false` and `queue_size > 1`,
enqueueing into a full queue replaces the current back reading with the
new reading carrying `GoodWithOverflowBit` and sets `overflow`; and the
concrete S2 run (queue size 3, readings 1..5 all `Good`) ends with values
`[1,2,5]`, the reading valued 5 carrying the overflow status, and
`overflow` set. -/
theorem enqueue_discard_newest_overflow
    (self : MonitoredItem) (dv : DataValue)
    (hdiscard : self.discardOldest = false)
    (hsize : 1 < self.queueSize)
    (hfull : self.queue.length = self.queueSize) :
    (_enqueue_value self dv).queue =
        self.queue.dropLast ++
          [{ dv with statusCode := StatusCode.GoodWithOverflowBit }] ∧
    (_enqueue_value self dv).overflow = true ∧
    s2_final.queue.map DataValue.value = [mkDouble 1, mkDouble 2, mkDouble 5] ∧
    s2_final.queue.map DataValue.statusCode =
      [StatusCode.Good, StatusCode.Good, StatusCode.GoodWithOverflowBit] ∧
    s2_final.overflow = true := by
  have hne : self.queueSize ≠ 1 := by omega
  have hnlt : ¬ self.queue.length < self.queueSize := by omega
  refine ⟨?_, ?_, by decide, by decide, by decide⟩ <;>
    simp [_enqueue_value, hne, hdiscard, hnlt]

/-- Witness for `enqueue_discard_oldest_overflow`: a discard-oldest item
with a full queue `[1, 2, 3]` receiving the reading 4. -/
theorem enqueue_discard_oldest_overflow_witness :
    (_enqueue_value s1_full (goodReading 4)).queue =
        { goodReading 2 with statusCode := StatusCode.GoodWithOverflowBit } ::
          ([goodReading 3] ++ [goodReading 4]) ∧
    (_enqueue_value s1_full (goodReading 4)).overflow = true ∧
    s1_final.queue.map DataValue.value = [mkDouble 3, mkDouble 4, mkDouble 5] ∧
    s1_final.queue.map DataValue.statusCode =
      [StatusCode.GoodWithOverflowBit, StatusCode.Good, StatusCode.Good] ∧
    s1_final.overflow = true :=
  enqueue_discard_oldest_overflow s1_full (goodReading 4) (goodReading 1)
    (goodReading 2) [goodReading 3] (by decide) (by decide) (by decide) (by decide)

/-- Witness for `enqueue_discard_newest_overflow`: a keep-oldest item with
a full queue `[1, 2, 3]` receiving the reading 4. -/
theorem enqueue_discard_newest_overflow_witness :
    (_enqueue_value s2_full (goodReading 4)).queue =
        s2_full.queue.dropLast ++
          [{ goodReading 4 with statusCode := StatusCode.GoodWithOverflowBit }] ∧
    (_enqueue_value s2_full (goodReading 4)).overflow = true ∧
    s2_final.queue.map DataValue.value = [mkDouble 1, mkDouble 2, mkDouble 5] ∧
    s2_final.queue.map DataValue.statusCode =
      [StatusCode.Good, StatusCode.Good, StatusCode.GoodWithOverflowBit] ∧
    s2_final.overflow = true :=
  enqueue_discard_newest_overflow s2_full (goodReading 4)
    (by decide) (by decide) (by decide)

/-- Claim C3, counterexample. The claim says a `Sampling → Reporting`
transition changes neither the sampler binding nor `old_reading`. In the
code the transition runs `_start_sampling(false)`
(`monitored_item.js:283`), which resets `oldDataValue` to the
`BadDataUnavailable` sentinel and stops and re-binds the sampler: on the
concrete item below (in `Sampling`, timer handle 0, `oldDataValue` = the
reading 7), the transition replaces `oldDataValue` and allocates a fresh
timer. -/
theorem sampling_to_reporting_resets_old_reading :
    c3_state.monitoringMode = MonitoringMode.Sampling ∧
    c3_state.oldDataValue = goodReading 7 ∧
    c3_state.samplingId = some 0 ∧
    (setMonitoringMode c3_state .Reporting unsetDataValue).oldDataValue ≠
      c3_state.oldDataValue ∧
    (setMonitoringMode c3_state .Reporting unsetDataValue).samplingId ≠
      c3_state.samplingId := by
  decide

/-- Claim C3, amended. A `Sampling ↔ Reporting` transition on a periodic
Value item (no event listener bound) leaves the queue, the overflow flag
and all parameters unchanged and enqueues nothing, but it does not leave
the sampler and baseline alone: `oldDataValue` is reset to the
`BadDataUnavailable` sentinel and the periodic timer is stopped and
re-scheduled with a fresh handle. -/
theorem sampling_reporting_transition_effects
    (self : MonitoredItem) (m : MonitoringMode) (readValue : DataValue)
    (hmode : (self.monitoringMode = .Sampling ∧ m = .Reporting) ∨
      (self.monitoringMode = .Reporting ∧ m = .Sampling))
    (hattr : self.itemToMonitor.attributeId = .Value)
    (hsi : self.samplingInterval ≠ 0)
    (hv : self.valueChangedCallback = false)
    (hacb : self.attributeChangedCallback = false) :
    setMonitoringMode self m readValue =
      { self with
          monitoringMode := m
          oldDataValue := unsetDataValue
          samplingId := some self.nextTimerHandle
          nextTimerHandle := self.nextTimerHandle + 1 } := by
  obtain ⟨hm, rfl⟩ | ⟨hm, rfl⟩ := hmode <;>
    · unfold setMonitoringMode _start_sampling _stop_sampling
      simp [hm, hattr, hsi, hv, hacb]
      cases self.samplingId <;> simp [hattr, hsi]

/-- Witness for `sampling_reporting_transition_effects`: the concrete
`Sampling` item `c3_state` moved to `Reporting`. -/
theorem sampling_reporting_transition_effects_witness :
    setMonitoringMode c3_state .Reporting unsetDataValue =
      { c3_state with
          monitoringMode := .Reporting
          oldDataValue := unsetDataValue
          samplingId := some c3_state.nextTimerHandle
          nextTimerHandle := c3_state.nextTimerHandle + 1 } :=
  sampling_reporting_transition_effects c3_state .Reporting unsetDataValue
    (Or.inl ⟨by decide, rfl⟩) (by decide) (by decide) (by decide) (by decide)

/-- Claim C8. In `Reporting` mode, `extractMonitoredItemNotifications`
returns the queued readings in queue (FIFO) order as
`{clientHandle, value}` pairs with timestamps normalised per
`timestampsToReturn`, and leaves behind the same item with an empty queue
and `overflow` cleared; outside `Reporting` it returns the empty list and
leaves the item untouched. -/
theorem extract_notifications_spec (self : MonitoredItem) :
    (self.monitoringMode = MonitoringMode.Reporting →
      extractMonitoredItemNotifications self =
        (self.queue.map fun dataValue =>
          { clientHandle := self.clientHandle
            value := apply_timestamps dataValue self.timestampsToReturn
              self.itemToMonitor.attributeId },
         { self with queue := [], overflow := false })) ∧
    (self.monitoringMode ≠ MonitoringMode.Reporting →
      extractMonitoredItemNotifications self = ([], self)) := by
  constructor <;> intro h <;>
    simp [extractMonitoredItemNotifications, _empty_queue, h]

/-- Witness for `extract_notifications_spec`: a `Reporting` item holding
two readings. -/
theorem extract_notifications_spec_witness :
    extractMonitoredItemNotifications c8_state =
      (c8_state.queue.map fun dataValue =>
        { clientHandle := c8_state.clientHandle
          value := apply_timestamps dataValue c8_state.timestampsToReturn
            c8_state.itemToMonitor.attributeId },
       { c8_state with queue := [], overflow := false }) :=
  (extract_notifications_spec c8_state).1 (by decide)

/-- Claim C10. Every sampler delivery path funnels through
`_on_value_changed`, which discards a reading equal to `oldDataValue`
under `sameDataValue` before `recordValue` can run: the timer callback,
and the value-change and attribute-change listeners (the `deliver`
operation of the model) all leave the item unchanged on such a reading. -/
theorem sampler_paths_drop_same_reading
    (self : MonitoredItem) (dataValue : DataValue) (indexRange : NumericRange)
    (hsame : sameDataValue dataValue self.oldDataValue = true) :
    _on_value_changed self dataValue indexRange = self ∧
    _on_sampling_timer self dataValue = self ∧
    step self (.deliver dataValue indexRange) = self := by
  have hvc : ∀ ir : NumericRange, _on_value_changed self dataValue ir = self := by
    intro ir
    unfold _on_value_changed
    simp [hsame]
  have hts : _on_sampling_timer self dataValue = self := by
    unfold _on_sampling_timer
    split_ifs <;> simp [hvc]
  refine ⟨hvc indexRange, hts, ?_⟩
  unfold step
  split_ifs <;> simp [hvc, hts]

/-- Witness for `sampler_paths_drop_same_reading`: the `Sampling` item
`c3_state` (timer bound, `oldDataValue` = the reading 7) receives the
identical reading again and is unchanged — while a direct `recordValue`
of that same reading would have enqueued it. -/
theorem sampler_paths_drop_same_reading_witness :
    step c3_state (.deliver (goodReading 7) NumericRange.nullRange) = c3_state ∧
    recordValue c3_state (goodReading 7) NumericRange.nullRange ≠ c3_state :=
  ⟨(sampler_paths_drop_same_reading c3_state (goodReading 7)
      NumericRange.nullRange (by decide)).2.2,
   by decide⟩

/-! ### Frame lemmas: the ingestion path never touches the sampler
configuration, and sampler management never touches the queue. -/

theorem samplerConfig_enqueue (self : MonitoredItem) (dv : DataValue) :
    samplerConfig (_enqueue_value self dv) = samplerConfig self := by
  unfold _enqueue_value
  dsimp only
  split_ifs <;> rfl

theorem samplerConfig_recordValue (self : MonitoredItem) (dv : DataValue)
    (ir : NumericRange) :
    samplerConfig (recordValue self dv ir) = samplerConfig self := by
  unfold recordValue
  dsimp only
  split_ifs <;> first
    | rfl
    | exact samplerConfig_enqueue self (extractRange dv self.itemToMonitor.indexRange)

theorem samplerConfig_on_value_changed (self : MonitoredItem) (dv : DataValue)
    (ir : NumericRange) :
    samplerConfig (_on_value_changed self dv ir) = samplerConfig self := by
  unfold _on_value_changed
  split_ifs <;> first
    | rfl
    | exact samplerConfig_recordValue self dv ir

theorem samplerConfig_on_sampling_timer (self : MonitoredItem) (dv : DataValue) :
    samplerConfig (_on_sampling_timer self dv) = samplerConfig self := by
  unfold _on_sampling_timer
  split_ifs <;> first
    | rfl
    | exact samplerConfig_on_value_changed self dv NumericRange.nullRange

theorem queueState_stop_sampling (self : MonitoredItem) :
    queueState (_stop_sampling self) = queueState self := by
  unfold _stop_sampling
  split_ifs <;> rfl

theorem queueState_change_timer_timeout (self : MonitoredItem) :
    queueState (_change_timer_timeout self) = queueState self := by
  unfold _change_timer_timeout
  cases self.samplingId <;> rfl

/-! ### Preservation of the overflow-marker invariant -/

theorem goodState_queueState_eq (a b : MonitoredItem)
    (h : queueState a = queueState b) : goodState a ↔ goodState b := by
  have hq : a.queue = b.queue := congrArg Prod.fst h
  have ho : a.overflow = b.overflow := congrArg (fun p => p.2.1) h
  have hss : a.queueSize = b.queueSize := congrArg (fun p => p.2.2) h
  unfold goodState overflowInvariant
  rw [hq, ho, hss]

theorem goodState_transport {a b : MonitoredItem}
    (h : queueState a = queueState b) (hb : goodState b) : goodState a :=
  (goodState_queueState_eq a b h).mpr hb


theorem goodState_enqueue (self : MonitoredItem) (dv : DataValue)
    (hdv : dv.statusCode ≠ StatusCode.GoodWithOverflowBit)
    (hs : goodState self) : goodState (_enqueue_value self dv) := by
  obtain ⟨hinv, hlen, hqs, hone⟩ := hs
  unfold overflowInvariant at hinv
  unfold _enqueue_value goodState overflowInvariant
  dsimp only
  split_ifs with h1 h2 h3 h4
  · -- queueSize = 1: the queue is overwritten with [dv]
    exact ⟨by simp [hone h1, hdv], by simp [h1], hqs, fun _ => hone h1⟩
  · -- discard oldest, overflow: drop front, promote the new front
    rcases hq : self.queue with _ | ⟨a, q⟩
    · exfalso
      rw [hq] at h3
      simp at h3
      omega
    · have hlenq : q.length + 1 ≤ self.queueSize := by
        rw [hq] at hlen; simpa using hlen
      simp only [List.cons_append, List.drop_succ_cons, List.drop_zero]
      rcases hq2 : q ++ [dv] with _ | ⟨f, r⟩
      · exact absurd hq2 (by simp)
      · have hlen2 : r.length = q.length := by
          have hc := congrArg List.length hq2
          simp at hc
          omega
        dsimp only
        refine ⟨by simp, ?_, hqs, fun hk => absurd hk h1⟩
        simp only [List.length_cons]
        omega
  · -- discard oldest, no overflow: plain push
    have hl : (self.queue ++ [dv]).length = self.queue.length + 1 := by simp
    rw [hl] at h3
    refine ⟨?_, by simp; omega, hqs, fun hk => absurd hk h1⟩
    simp only [List.mem_append, List.mem_singleton]
    constructor
    · intro ho
      obtain ⟨x, hx, hbx⟩ := hinv.mp ho
      exact ⟨x, Or.inl hx, hbx⟩
    · rintro ⟨x, hx | rfl, hbx⟩
      · exact hinv.mpr ⟨x, hx, hbx⟩
      · exact absurd hbx hdv
  · -- keep oldest, not full: plain push
    refine ⟨?_, by simp; omega, hqs, fun hk => absurd hk h1⟩
    simp only [List.mem_append, List.mem_singleton]
    constructor
    · intro ho
      obtain ⟨x, hx, hbx⟩ := hinv.mp ho
      exact ⟨x, Or.inl hx, hbx⟩
    · rintro ⟨x, hx | rfl, hbx⟩
      · exact hinv.mpr ⟨x, hx, hbx⟩
      · exact absurd hbx hdv
  · -- keep oldest, full: replace the back element with the marked reading
    refine ⟨⟨fun _ => ⟨{ dv with statusCode := StatusCode.GoodWithOverflowBit },
        ?_, rfl⟩, fun _ => rfl⟩, ?_, hqs, fun hk => absurd hk h1⟩
    · exact List.mem_append_right _ (List.mem_singleton_self _)
    · simp only [List.length_append, List.length_dropLast, List.length_singleton]
      omega

theorem goodState_recordValue (self : MonitoredItem) (dv : DataValue)
    (ir : NumericRange)
    (hdv : dv.statusCode ≠ StatusCode.GoodWithOverflowBit)
    (hs : goodState self) : goodState (recordValue self dv ir) := by
  unfold recordValue
  dsimp only
  split_ifs
  all_goals first
    | exact hs
    | exact goodState_transport rfl
        (goodState_enqueue self (extractRange dv self.itemToMonitor.indexRange) hdv hs)

theorem goodState_on_value_changed (self : MonitoredItem) (dv : DataValue)
    (ir : NumericRange)
    (hdv : dv.statusCode ≠ StatusCode.GoodWithOverflowBit)
    (hs : goodState self) : goodState (_on_value_changed self dv ir) := by
  unfold _on_value_changed
  split_ifs
  all_goals first
    | exact hs
    | exact goodState_recordValue self dv ir hdv hs

theorem goodState_on_sampling_timer (self : MonitoredItem) (dv : DataValue)
    (hdv : dv.statusCode ≠ StatusCode.GoodWithOverflowBit)
    (hs : goodState self) : goodState (_on_sampling_timer self dv) := by
  unfold _on_sampling_timer
  split_ifs
  all_goals first
    | exact hs
    | exact goodState_on_value_changed self dv NumericRange.nullRange hdv hs

theorem goodState_start_sampling (self : MonitoredItem)
    (recordInitialValue : Bool) (readValue : DataValue)
    (hrv : readValue.statusCode ≠ StatusCode.GoodWithOverflowBit)
    (hs : goodState self) :
    goodState (_start_sampling self recordInitialValue readValue) := by
  have hstopped :
      goodState (_stop_sampling { self with oldDataValue := unsetDataValue }) :=
    goodState_transport
      (queueState_stop_sampling { self with oldDataValue := unsetDataValue }) hs
  unfold _start_sampling
  dsimp only
  split_ifs
  all_goals first
    | exact goodState_transport rfl hstopped
    | exact goodState_recordValue _ _ _ hrv (goodState_transport rfl hstopped)
    | exact goodState_on_sampling_timer _ _ hrv (goodState_transport rfl hstopped)

theorem goodState_setMonitoringMode (self : MonitoredItem)
    (m : MonitoringMode) (readValue : DataValue)
    (hrv : readValue.statusCode ≠ StatusCode.GoodWithOverflowBit)
    (hs : goodState self) :
    goodState (setMonitoringMode self m readValue) := by
  have hqsize : (_stop_sampling { self with monitoringMode := m }).queueSize
      = self.queueSize :=
    congrArg (fun p => p.2.2)
      (queueState_stop_sampling { self with monitoringMode := m })
  unfold setMonitoringMode
  dsimp only
  split_ifs
  all_goals first
    | exact hs
    | exact goodState_start_sampling _ _ _ hrv (goodState_transport rfl hs)
    | exact ⟨by simp [overflowInvariant], by simp, by rw [hqsize]; exact hs.2.2.1,
        fun _ => rfl⟩

theorem goodState_extract (self : MonitoredItem) (hs : goodState self) :
    goodState (extractMonitoredItemNotifications self).2 := by
  unfold extractMonitoredItemNotifications _empty_queue
  dsimp only
  split_ifs
  all_goals first
    | exact hs
    | exact ⟨by simp [overflowInvariant], by simp, hs.2.2.1, fun _ => rfl⟩

theorem goodState_adjust_sampling (x : MonitoredItem) (old : Nat)
    (hx : goodState x) : goodState (_adjust_sampling x old) := by
  unfold _adjust_sampling
  split_ifs
  · exact goodState_transport (queueState_change_timer_timeout x) hx
  · exact hx

theorem goodState_adjust_queue (x : MonitoredItem)
    (hbound : x.queue.length ≤ x.queueSize)
    (hqs : 1 ≤ x.queueSize)
    (hinv : overflowInvariant x) :
    goodState (_adjust_queue_to_match_new_queue_size x) := by
  unfold overflowInvariant at hinv
  have hc1 : ¬ (x.queueSize < x.queue.length) := by omega
  unfold _adjust_queue_to_match_new_queue_size goodState overflowInvariant
  dsimp only
  simp only [if_neg hc1]
  split_ifs with h3
  · -- new capacity ≤ 1, hence = 1: overflow cleared, lone marker downgraded
    rcases hq : x.queue with _ | ⟨a, q⟩
    · exact ⟨by simp, by simp, hqs, fun _ => rfl⟩
    · have hq0 : q = [] := by
        rw [hq] at hbound
        cases q with
        | nil => rfl
        | cons b t => simp at hbound; omega
      subst hq0
      dsimp only
      split_ifs with hbit
      · exact ⟨by simp, by simpa using hqs, hqs, fun _ => rfl⟩
      · exact ⟨by simp [hbit], by simpa using hqs, hqs, fun _ => rfl⟩
  · exact ⟨hinv, hbound, hqs, fun hk => absurd hk (by omega)⟩

theorem goodState_modify (self : MonitoredItem)
    (ttr : Option TimestampsToReturn) (options : MonitoringParameters)
    (hbound : self.queue.length ≤ _adjust_queue_size options.queueSize)
    (hs : goodState self) : goodState (modify self ttr options).2 := by
  obtain ⟨hinv, hlen, hqs, hone⟩ := hs
  have hclamp : 1 ≤ _adjust_queue_size options.queueSize := le_max_left 1 _
  unfold modify _set_parameters
  dsimp only
  cases ttr with
  | none =>
      exact goodState_adjust_sampling _ _
        (goodState_adjust_queue _ hbound hclamp hinv)
  | some t =>
      exact goodState_adjust_sampling _ _
        (goodState_adjust_queue _ hbound hclamp hinv)

/-! ### Sampler-configuration projections of the ingestion path -/

@[simp] theorem enqueue_monitoringMode (self : MonitoredItem) (dv : DataValue) :
    (_enqueue_value self dv).monitoringMode = self.monitoringMode :=
  congrArg (fun p => p.1) (samplerConfig_enqueue self dv)

@[simp] theorem enqueue_samplingId (self : MonitoredItem) (dv : DataValue) :
    (_enqueue_value self dv).samplingId = self.samplingId :=
  congrArg (fun p => p.2.1) (samplerConfig_enqueue self dv)

@[simp] theorem enqueue_valueChangedCallback (self : MonitoredItem) (dv : DataValue) :
    (_enqueue_value self dv).valueChangedCallback = self.valueChangedCallback :=
  congrArg (fun p => p.2.2.1) (samplerConfig_enqueue self dv)

@[simp] theorem enqueue_attributeChangedCallback (self : MonitoredItem) (dv : DataValue) :
    (_enqueue_value self dv).attributeChangedCallback = self.attributeChangedCallback :=
  congrArg (fun p => p.2.2.2) (samplerConfig_enqueue self dv)

@[simp] theorem recordValue_monitoringMode (self : MonitoredItem) (dv : DataValue)
    (ir : NumericRange) :
    (recordValue self dv ir).monitoringMode = self.monitoringMode :=
  congrArg (fun p => p.1) (samplerConfig_recordValue self dv ir)

@[simp] theorem recordValue_samplingId (self : MonitoredItem) (dv : DataValue)
    (ir : NumericRange) :
    (recordValue self dv ir).samplingId = self.samplingId :=
  congrArg (fun p => p.2.1) (samplerConfig_recordValue self dv ir)

@[simp] theorem recordValue_valueChangedCallback (self : MonitoredItem)
    (dv : DataValue) (ir : NumericRange) :
    (recordValue self dv ir).valueChangedCallback = self.valueChangedCallback :=
  congrArg (fun p => p.2.2.1) (samplerConfig_recordValue self dv ir)

@[simp] theorem recordValue_attributeChangedCallback (self : MonitoredItem)
    (dv : DataValue) (ir : NumericRange) :
    (recordValue self dv ir).attributeChangedCallback = self.attributeChangedCallback :=
  congrArg (fun p => p.2.2.2) (samplerConfig_recordValue self dv ir)

@[simp] theorem on_value_changed_monitoringMode (self : MonitoredItem)
    (dv : DataValue) (ir : NumericRange) :
    (_on_value_changed self dv ir).monitoringMode = self.monitoringMode :=
  congrArg (fun p => p.1) (samplerConfig_on_value_changed self dv ir)

@[simp] theorem on_value_changed_samplingId (self : MonitoredItem)
    (dv : DataValue) (ir : NumericRange) :
    (_on_value_changed self dv ir).samplingId = self.samplingId :=
  congrArg (fun p => p.2.1) (samplerConfig_on_value_changed self dv ir)

@[simp] theorem on_value_changed_valueChangedCallback (self : MonitoredItem)
    (dv : DataValue) (ir : NumericRange) :
    (_on_value_changed self dv ir).valueChangedCallback = self.valueChangedCallback :=
  congrArg (fun p => p.2.2.1) (samplerConfig_on_value_changed self dv ir)

@[simp] theorem on_value_changed_attributeChangedCallback (self : MonitoredItem)
    (dv : DataValue) (ir : NumericRange) :
    (_on_value_changed self dv ir).attributeChangedCallback
      = self.attributeChangedCallback :=
  congrArg (fun p => p.2.2.2) (samplerConfig_on_value_changed self dv ir)

@[simp] theorem on_sampling_timer_monitoringMode (self : MonitoredItem)
    (dv : DataValue) :
    (_on_sampling_timer self dv).monitoringMode = self.monitoringMode :=
  congrArg (fun p => p.1) (samplerConfig_on_sampling_timer self dv)

@[simp] theorem on_sampling_timer_samplingId (self : MonitoredItem)
    (dv : DataValue) :
    (_on_sampling_timer self dv).samplingId = self.samplingId :=
  congrArg (fun p => p.2.1) (samplerConfig_on_sampling_timer self dv)

@[simp] theorem on_sampling_timer_valueChangedCallback (self : MonitoredItem)
    (dv : DataValue) :
    (_on_sampling_timer self dv).valueChangedCallback = self.valueChangedCallback :=
  congrArg (fun p => p.2.2.1) (samplerConfig_on_sampling_timer self dv)

@[simp] theorem on_sampling_timer_attributeChangedCallback (self : MonitoredItem)
    (dv : DataValue) :
    (_on_sampling_timer self dv).attributeChangedCallback
      = self.attributeChangedCallback :=
  congrArg (fun p => p.2.2.2) (samplerConfig_on_sampling_timer self dv)

@[simp] theorem stop_sampling_monitoringMode (self : MonitoredItem) :
    (_stop_sampling self).monitoringMode = self.monitoringMode := by
  unfold _stop_sampling
  split_ifs <;> rfl

/-! ### Preservation of the Disabled-mode invariant -/

theorem stop_sampling_unbound (self : MonitoredItem)
    (h : bindingCount self ≤ 1) : samplerUnbound (_stop_sampling self) := by
  unfold bindingCount at h
  unfold _stop_sampling samplerUnbound
  rcases hsi : self.samplingId with _ | id <;>
    rcases hv : self.valueChangedCallback <;>
      rcases ha : self.attributeChangedCallback <;>
        simp [hsi, hv, ha] at h ⊢

theorem start_sampling_mode (x : MonitoredItem) (b : Bool) (rv : DataValue) :
    (_start_sampling x b rv).monitoringMode = x.monitoringMode := by
  unfold _start_sampling
  dsimp only
  split_ifs <;> simp

theorem start_sampling_count (x : MonitoredItem) (b : Bool) (rv : DataValue)
    (hx : bindingCount x ≤ 1) :
    bindingCount (_start_sampling x b rv) ≤ 1 := by
  obtain ⟨ha, hb2, hc⟩ :=
    stop_sampling_unbound { x with oldDataValue := unsetDataValue } hx
  unfold _start_sampling
  dsimp only
  split_ifs <;> simp [bindingCount, ha, hb2, hc]

theorem change_timer_bindings (x : MonitoredItem) :
    (_change_timer_timeout x).monitoringMode = x.monitoringMode ∧
    (_change_timer_timeout x).samplingId.isSome = x.samplingId.isSome ∧
    (_change_timer_timeout x).valueChangedCallback = x.valueChangedCallback ∧
    (_change_timer_timeout x).attributeChangedCallback
      = x.attributeChangedCallback ∧
    (_change_timer_timeout x).queue = x.queue := by
  unfold _change_timer_timeout
  rcases hsi : x.samplingId with _ | id <;> simp [hsi]

theorem adjust_queue_sampler (x : MonitoredItem) :
    samplerConfig (_adjust_queue_to_match_new_queue_size x) = samplerConfig x := by
  unfold _adjust_queue_to_match_new_queue_size
  dsimp only
  rcases hl : x.queue.getLast? with _ | le <;>
    split_ifs <;> first
      | rfl
      | (split <;> first
          | rfl
          | (split_ifs <;> rfl))

theorem adjust_queue_nil (x : MonitoredItem) (h : x.queue = []) :
    (_adjust_queue_to_match_new_queue_size x).queue = [] := by
  unfold _adjust_queue_to_match_new_queue_size
  dsimp only
  simp only [h, List.length_nil]
  split_ifs <;> first
    | omega
    | simp [h]

theorem disabledInvariant_modify (x : MonitoredItem)
    (ttr : Option TimestampsToReturn) (options : MonitoringParameters)
    (h : disabledInvariant x) : disabledInvariant (modify x ttr options).2 := by
  obtain ⟨hcount, hunb, hqueue⟩ := h
  unfold modify _adjust_sampling
  dsimp only
  -- facts about the queue-fit stage over the re-parameterised state
  cases ttr with
  | none =>
      obtain ⟨hm, hsi, hvc, hac⟩ :
          (_adjust_queue_to_match_new_queue_size
              (_set_parameters x options)).monitoringMode = x.monitoringMode ∧
          (_adjust_queue_to_match_new_queue_size
              (_set_parameters x options)).samplingId = x.samplingId ∧
          (_adjust_queue_to_match_new_queue_size
              (_set_parameters x options)).valueChangedCallback
            = x.valueChangedCallback ∧
          (_adjust_queue_to_match_new_queue_size
              (_set_parameters x options)).attributeChangedCallback
            = x.attributeChangedCallback := by
        have hcfg := adjust_queue_sampler (_set_parameters x options)
        exact ⟨congrArg (fun p => p.1) hcfg, congrArg (fun p => p.2.1) hcfg,
          congrArg (fun p => p.2.2.1) hcfg, congrArg (fun p => p.2.2.2) hcfg⟩
      have hnil : x.queue = [] →
          (_adjust_queue_to_match_new_queue_size
            (_set_parameters x options)).queue = [] := fun hq =>
        adjust_queue_nil (_set_parameters x options) hq
      split_ifs
      · -- the timer is rescheduled
        obtain ⟨cm, cs, cv, ca, cq⟩ :=
          change_timer_bindings
            (_adjust_queue_to_match_new_queue_size (_set_parameters x options))
        refine ⟨?_, ?_, ?_⟩
        · unfold bindingCount at hcount ⊢
          rw [cs, cv, ca, hsi, hvc, hac]
          exact hcount
        · intro hd
          rw [cm, hm] at hd
          obtain ⟨u1, u2, u3⟩ := hunb hd
          refine ⟨?_, by rw [cv, hvc]; exact u2, by rw [ca, hac]; exact u3⟩
          have : (_change_timer_timeout
              (_adjust_queue_to_match_new_queue_size
                (_set_parameters x options))).samplingId.isSome = false := by
            rw [cs, hsi, u1]
            rfl
          exact Option.not_isSome_iff_eq_none.mp (by simp [this])
        · intro hd
          rw [cm, hm] at hd
          rw [cq]
          exact hnil (hqueue hd)
      · refine ⟨?_, ?_, ?_⟩
        · unfold bindingCount at hcount ⊢
          rw [hsi, hvc, hac]
          exact hcount
        · intro hd
          rw [hm] at hd
          obtain ⟨u1, u2, u3⟩ := hunb hd
          exact ⟨by rw [hsi]; exact u1, by rw [hvc]; exact u2, by rw [hac]; exact u3⟩
        · intro hd
          rw [hm] at hd
          exact hnil (hqueue hd)
  | some t =>
      obtain ⟨hm, hsi, hvc, hac⟩ :
          (_adjust_queue_to_match_new_queue_size
              (_set_parameters { x with timestampsToReturn := t }
                options)).monitoringMode = x.monitoringMode ∧
          (_adjust_queue_to_match_new_queue_size
              (_set_parameters { x with timestampsToReturn := t }
                options)).samplingId = x.samplingId ∧
          (_adjust_queue_to_match_new_queue_size
              (_set_parameters { x with timestampsToReturn := t }
                options)).valueChangedCallback = x.valueChangedCallback ∧
          (_adjust_queue_to_match_new_queue_size
              (_set_parameters { x with timestampsToReturn := t }
                options)).attributeChangedCallback
            = x.attributeChangedCallback := by
        have hcfg := adjust_queue_sampler
          (_set_parameters { x with timestampsToReturn := t } options)
        exact ⟨congrArg (fun p => p.1) hcfg, congrArg (fun p => p.2.1) hcfg,
          congrArg (fun p => p.2.2.1) hcfg, congrArg (fun p => p.2.2.2) hcfg⟩
      have hnil : x.queue = [] →
          (_adjust_queue_to_match_new_queue_size
            (_set_parameters { x with timestampsToReturn := t }
              options)).queue = [] := fun hq =>
        adjust_queue_nil _ hq
      split_ifs
      · obtain ⟨cm, cs, cv, ca, cq⟩ :=
          change_timer_bindings
            (_adjust_queue_to_match_new_queue_size
              (_set_parameters { x with timestampsToReturn := t } options))
        refine ⟨?_, ?_, ?_⟩
        · unfold bindingCount at hcount ⊢
          rw [cs, cv, ca, hsi, hvc, hac]
          exact hcount
        · intro hd
          rw [cm, hm] at hd
          obtain ⟨u1, u2, u3⟩ := hunb hd
          refine ⟨?_, by rw [cv, hvc]; exact u2, by rw [ca, hac]; exact u3⟩
          have : (_change_timer_timeout
              (_adjust_queue_to_match_new_queue_size
                (_set_parameters { x with timestampsToReturn := t }
                  options))).samplingId.isSome = false := by
            rw [cs, hsi, u1]
            rfl
          exact Option.not_isSome_iff_eq_none.mp (by simp [this])
        · intro hd
          rw [cm, hm] at hd
          rw [cq]
          exact hnil (hqueue hd)
      · refine ⟨?_, ?_, ?_⟩
        · unfold bindingCount at hcount ⊢
          rw [hsi, hvc, hac]
          exact hcount
        · intro hd
          rw [hm] at hd
          obtain ⟨u1, u2, u3⟩ := hunb hd
          exact ⟨by rw [hsi]; exact u1, by rw [hvc]; exact u2, by rw [hac]; exact u3⟩
        · intro hd
          rw [hm] at hd
          exact hnil (hqueue hd)

theorem disabledInvariant_step (self : MonitoredItem) (op : Op)
    (hop : validOp op = true) (h : disabledInvariant self) :
    disabledInvariant (step self op) := by
  obtain ⟨hcount, hunb, hqueue⟩ := h
  cases op with
  | setMode m readValue =>
      have hmI : m ≠ MonitoringMode.Invalid := by
        unfold validOp at hop
        exact bne_iff_ne.mp hop
      show disabledInvariant (setMonitoringMode self m readValue)
      unfold setMonitoringMode
      dsimp only
      split_ifs with h1 h2
      · exact ⟨hcount, hunb, hqueue⟩
      · -- entering Disabled
        obtain ⟨u1, u2, u3⟩ :=
          stop_sampling_unbound { self with monitoringMode := m } hcount
        refine ⟨?_, fun _ => ⟨u1, u2, u3⟩, fun _ => rfl⟩
        unfold bindingCount
        simp [u1, u2, u3]
      · -- entering Sampling or Reporting
        refine ⟨start_sampling_count _ _ _ hcount, ?_, ?_⟩
        · intro hd
          rw [start_sampling_mode] at hd
          rcases hd with hd | hd
          · exact absurd hd h2
          · exact absurd hd hmI
        · intro hd
          rw [start_sampling_mode] at hd
          exact absurd hd h2
  | deliver dataValue ir =>
      show disabledInvariant (step self (.deliver dataValue ir))
      unfold step
      dsimp only
      split_ifs with hsi hcb
      · -- a live timer fired
        refine ⟨?_, ?_, ?_⟩
        · unfold bindingCount
          simp only [on_sampling_timer_samplingId, on_sampling_timer_valueChangedCallback,
            on_sampling_timer_attributeChangedCallback]
          exact hcount
        · intro hd
          rw [on_sampling_timer_monitoringMode] at hd
          obtain ⟨u1, _, _⟩ := hunb hd
          rw [u1] at hsi
          exact absurd hsi (by simp)
        · intro hd
          rw [on_sampling_timer_monitoringMode] at hd
          obtain ⟨u1, _, _⟩ := hunb (Or.inl hd)
          rw [u1] at hsi
          exact absurd hsi (by simp)
      · -- a live event listener fired
        refine ⟨?_, ?_, ?_⟩
        · unfold bindingCount
          simp only [on_value_changed_samplingId, on_value_changed_valueChangedCallback,
            on_value_changed_attributeChangedCallback]
          exact hcount
        · intro hd
          rw [on_value_changed_monitoringMode] at hd
          obtain ⟨_, u2, u3⟩ := hunb hd
          rw [u2, u3] at hcb
          simp at hcb
        · intro hd
          rw [on_value_changed_monitoringMode] at hd
          obtain ⟨_, u2, u3⟩ := hunb (Or.inl hd)
          rw [u2, u3] at hcb
          simp at hcb
      · exact ⟨hcount, hunb, hqueue⟩
  | extract =>
      show disabledInvariant (extractMonitoredItemNotifications self).2
      unfold extractMonitoredItemNotifications _empty_queue
      dsimp only
      split_ifs with h1
      · exact ⟨hcount, hunb, hqueue⟩
      · have hrep : self.monitoringMode = MonitoringMode.Reporting := by
          by_contra hc
          exact h1 hc
        refine ⟨hcount, ?_, fun _ => rfl⟩
        intro hd
        rcases hd with hd | hd <;> rw [hrep] at hd <;> exact absurd hd (by simp)
  | modifyOp ttr options =>
      exact disabledInvariant_modify self ttr options ⟨hcount, hunb, hqueue⟩

theorem disabledInvariant_create (options : MonitoredItemOptions) :
    disabledInvariant (createMonitoredItem options) := by
  unfold disabledInvariant createMonitoredItem bindingCount samplerUnbound
  refine ⟨by simp, fun _ => ⟨rfl, rfl, rfl⟩, fun hd => absurd hd (by simp)⟩

theorem disabledInvariant_run (ops : List Op) :
    ∀ self : MonitoredItem, disabledInvariant self →
      validTrace self ops = true → disabledInvariant (run self ops) := by
  induction ops with
  | nil => exact fun self hs _ => hs
  | cons op ops ih =>
      intro self hs htr
      simp only [validTrace, Bool.and_eq_true] at htr
      exact ih (step self op) (disabledInvariant_step self op htr.1 hs) htr.2

theorem goodState_create (options : MonitoredItemOptions) :
    goodState (createMonitoredItem options) := by
  unfold goodState overflowInvariant createMonitoredItem
  exact ⟨by simp, by simp, le_max_left 1 _, fun _ => rfl⟩

theorem goodState_step (self : MonitoredItem) (op : Op)
    (hop : overflowSafeOp self op = true) (hs : goodState self) :
    goodState (step self op) := by
  cases op with
  | setMode m readValue =>
      rw [overflowSafeOp, Bool.and_eq_true] at hop
      exact goodState_setMonitoringMode self m readValue
        (bne_iff_ne.mp hop.2) hs
  | deliver dataValue ir =>
      rw [overflowSafeOp] at hop
      have hdv := bne_iff_ne.mp hop
      show goodState (step self (.deliver dataValue ir))
      unfold step
      dsimp only
      split_ifs
      · exact goodState_on_sampling_timer self dataValue hdv hs
      · exact goodState_on_value_changed self dataValue ir hdv hs
      · exact hs
  | extract => exact goodState_extract self hs
  | modifyOp ttr options =>
      rw [overflowSafeOp] at hop
      exact goodState_modify self ttr options (of_decide_eq_true hop) hs

theorem goodState_run (ops : List Op) :
    ∀ self : MonitoredItem, goodState self →
      overflowSafeTrace self ops = true → goodState (run self ops) := by
  induction ops with
  | nil => exact fun self hs _ => hs
  | cons op ops ih =>
      intro self hs htr
      simp only [overflowSafeTrace, Bool.and_eq_true] at htr
      exact ih (step self op) (goodState_step self op htr.1 hs) htr.2

/-- Claim C6, counterexample. The claim says `overflow` is true iff some
queued reading carries the queue-applied `GoodWithOverflowBit`, over every
sequence of valid operations. The trace `c6_ops` (enable into `Sampling`,
deliver four `Good` readings into a capacity-3 discard-oldest queue, then
`modify` the queue size down to 2) is a valid operation sequence, yet it
ends with `overflow = true` while the queue holds exactly the two `Good`
readings 3 and 4 — the `modify` resize dropped the marked front reading
without clearing `overflow` (`_adjust_queue_to_match_new_queue_size` only
clears it when the new size is ≤ 1). -/
theorem overflow_invariant_broken_by_resize :
    validTrace (createMonitoredItem (scenarioOptions true 3)) c6_ops = true ∧
    c6_state.overflow = true ∧
    c6_state.queue = [goodReading 3, goodReading 4] ∧
    (goodReading 3).statusCode = StatusCode.Good ∧
    (goodReading 4).statusCode = StatusCode.Good := by
  exact ⟨by decide, by decide, by decide, rfl, rfl⟩

/-- Claim C6, amended. Over every operation sequence that is
overflow-safe — delivered and initially-read readings do not already carry
`GoodWithOverflowBit`, and no `modify` shrinks the (clamped) queue
capacity below the readings currently queued — the invariant holds in the
reached state: `overflow = true` iff some queued reading carries
`GoodWithOverflowBit`. -/
theorem overflow_invariant_of_safe_traces
    (options : MonitoredItemOptions) (ops : List Op)
    (h : overflowSafeTrace (createMonitoredItem options) ops = true) :
    overflowInvariant (run (createMonitoredItem options) ops) :=
  (goodState_run ops (createMonitoredItem options)
    (goodState_create options) h).1

/-- Witness for `overflow_invariant_of_safe_traces`: a safe trace that
actually overflows the queue. -/
theorem overflow_invariant_of_safe_traces_witness :
    overflowSafeTrace (createMonitoredItem (scenarioOptions true 3))
      c6_safe_ops = true ∧
    overflowInvariant
      (run (createMonitoredItem (scenarioOptions true 3)) c6_safe_ops) :=
  ⟨by decide,
   overflow_invariant_of_safe_traces (scenarioOptions true 3) c6_safe_ops
     (by decide)⟩

/-- Claim C7. In every state reached from creation by a valid operation
sequence: (a) if the monitoring mode is `Disabled` then the queue is empty
and no sampler binding (timer, value-change listener or attribute-change
listener) is live; and (b) from `Sampling` or `Reporting`,
`setMonitoringMode(Disabled)` unbinds the sampler, empties the queue and
clears the overflow flag. -/
theorem disabled_mode_invariant (options : MonitoredItemOptions)
    (ops : List Op) (readValue : DataValue)
    (h : validTrace (createMonitoredItem options) ops = true) :
    ((run (createMonitoredItem options) ops).monitoringMode
        = MonitoringMode.Disabled →
      (run (createMonitoredItem options) ops).queue = [] ∧
      samplerUnbound (run (createMonitoredItem options) ops)) ∧
    ((run (createMonitoredItem options) ops).monitoringMode
          = MonitoringMode.Sampling ∨
      (run (createMonitoredItem options) ops).monitoringMode
          = MonitoringMode.Reporting →
      (setMonitoringMode (run (createMonitoredItem options) ops)
          MonitoringMode.Disabled readValue).queue = [] ∧
      (setMonitoringMode (run (createMonitoredItem options) ops)
          MonitoringMode.Disabled readValue).overflow = false ∧
      samplerUnbound
        (setMonitoringMode (run (createMonitoredItem options) ops)
          MonitoringMode.Disabled readValue)) := by
  obtain ⟨hcount, hunb, hqueue⟩ :=
    disabledInvariant_run ops (createMonitoredItem options)
      (disabledInvariant_create options) h
  constructor
  · intro hd
    exact ⟨hqueue hd, hunb (Or.inl hd)⟩
  · intro hmode
    have hne : MonitoringMode.Disabled
        ≠ (run (createMonitoredItem options) ops).monitoringMode := by
      rcases hmode with hm | hm <;> rw [hm] <;> simp
    unfold setMonitoringMode
    dsimp only
    rw [if_neg hne, if_pos rfl]
    obtain ⟨u1, u2, u3⟩ := stop_sampling_unbound
      { run (createMonitoredItem options) ops with
          monitoringMode := MonitoringMode.Disabled } hcount
    exact ⟨rfl, rfl, u1, u2, u3⟩

/-- Witness for `disabled_mode_invariant`: an item enabled into `Sampling`
with one recorded reading, then disabled. -/
theorem disabled_mode_invariant_witness :
    ((run (createMonitoredItem (scenarioOptions true 3))
          [.setMode .Sampling (goodReading 7)]).monitoringMode
        = MonitoringMode.Disabled →
      (run (createMonitoredItem (scenarioOptions true 3))
          [.setMode .Sampling (goodReading 7)]).queue = [] ∧
      samplerUnbound (run (createMonitoredItem (scenarioOptions true 3))
          [.setMode .Sampling (goodReading 7)])) ∧
    ((run (createMonitoredItem (scenarioOptions true 3))
            [.setMode .Sampling (goodReading 7)]).monitoringMode
          = MonitoringMode.Sampling ∨
      (run (createMonitoredItem (scenarioOptions true 3))
            [.setMode .Sampling (goodReading 7)]).monitoringMode
          = MonitoringMode.Reporting →
      (setMonitoringMode (run (createMonitoredItem (scenarioOptions true 3))
            [.setMode .Sampling (goodReading 7)])
          MonitoringMode.Disabled unsetDataValue).queue = [] ∧
      (setMonitoringMode (run (createMonitoredItem (scenarioOptions true 3))
            [.setMode .Sampling (goodReading 7)])
          MonitoringMode.Disabled unsetDataValue).overflow = false ∧
      samplerUnbound
        (setMonitoringMode (run (createMonitoredItem (scenarioOptions true 3))
            [.setMode .Sampling (goodReading 7)])
          MonitoringMode.Disabled unsetDataValue)) :=
  disabled_mode_invariant (scenarioOptions true 3)
    [.setMode .Sampling (goodReading 7)] unsetDataValue (by decide)

end MonitoredItemSpec
